import Mathlib

/-
Shallow embedding of the safetrustrcr-frontend registration flow and the
paid-state-bid-request page.

The registration submit handler (src/unnamed/part_000, `onSubmit`) is an
async JavaScript function whose observable behaviour is the ordered list
of effects it performs: state writes to the `isSubmitting` flag, the
identity-provider call `createUserWithEmailAndPassword`, route navigation,
and console logging.  We embed it as a trace monad `M`: a computation
yields the list of emitted events together with a result that is either
normal completion or a thrown exception, and `tryCatchFinally` mirrors the
JavaScript try/catch/finally semantics.

The two view components (`Registration`'s markup, `PhoneInput`, and the
`PaidStateBidRequest` page in src/app/profile/bids/page.tsx) are embedded
as pure functions into a markup tree `Node`, parametric in the type of
event handlers attached to the tree.
-/

namespace SafeTrust

/-- One observable effect of the registration submit handler. -/
inductive Event where
  | setSubmitting (b : Bool)
  | createUser (email password : String)
  | navigate (route : String) (stateEmail : String)
  | logError (msg : String)
deriving DecidableEq, Repr

/-- Result of a JavaScript async computation: normal completion or a
thrown (rejected) error. -/
inductive Res (α : Type) where
  | ok (a : α)
  | err (e : String)
deriving DecidableEq, Repr

/-- Trace monad: emitted events paired with the completion result. -/
def M (α : Type) : Type := List Event × Res α

/-- Sequencing: on normal completion continue, on a thrown error stop,
accumulating emitted events in order. -/
def M.bind {α β : Type} (m : M α) (f : α → M β) : M β :=
  match m with
  | (evs, Res.ok a) =>
      let r := f a
      (evs ++ r.1, r.2)
  | (evs, Res.err e) => (evs, Res.err e)

/-- Emit a single event and complete normally. -/
def emit (e : Event) : M Unit := ([e], Res.ok ())

/-- JavaScript try/catch/finally: the handler runs only when the body
throws; the finally block always runs afterwards, and an error thrown by
the finally block overrides the previous result. -/
def tryCatchFinally {α : Type} (body : M α) (handler : String → M α)
    (fin : M Unit) : M α :=
  let afterCatch : M α :=
    match body with
    | (evs, Res.ok a) => (evs, Res.ok a)
    | (evs, Res.err e) =>
        let h := handler e
        (evs ++ h.1, h.2)
  match fin with
  | (fevs, Res.ok _) => (afterCatch.1 ++ fevs, afterCatch.2)
  | (fevs, Res.err e) => (afterCatch.1 ++ fevs, Res.err e)

/-- Environment outcome of the identity-provider call: the external
service either resolves or rejects with some error. -/
inductive AuthOutcome where
  | success
  | failure (e : String)
deriving DecidableEq, Repr

/-- The identity-provider call `createUserWithEmailAndPassword(auth,
email, password)`: it performs the account-creation effect and then
resolves or rejects according to the environment outcome. -/
def createUserWithEmailAndPassword (outcome : AuthOutcome)
    (email password : String) : M Unit :=
  match outcome with
  | AuthOutcome.success => ([Event.createUser email password], Res.ok ())
  | AuthOutcome.failure e => ([Event.createUser email password], Res.err e)

/-- The registration form record (`interface RegistrationForm`). -/
structure RegistrationForm where
  fullName : String
  phoneNumber : String
  countryCode : String
  location : String
  email : String
  password : String

/-- The submit handler of the Registration component:
`setIsSubmitting(true); try { await createUserWithEmailAndPassword(auth,
data.email, data.password); navigate('/verify-email', { state: { email:
data.email } }); } catch (error) { console.error('Registration error:',
error); } finally { setIsSubmitting(false); }` -/
def onSubmit (outcome : AuthOutcome) (data : RegistrationForm) : M Unit :=
  M.bind (emit (Event.setSubmitting true)) fun _ =>
  tryCatchFinally
    (M.bind
      (createUserWithEmailAndPassword outcome data.email data.password)
      fun _ => emit (Event.navigate "/verify-email" data.email))
    (fun error => emit (Event.logError ("Registration error: " ++ error)))
    (emit (Event.setSubmitting false))

/-- The identity-provider calls recorded in a trace, with their email and
password arguments. -/
def authCalls (evs : List Event) : List (String × String) :=
  evs.filterMap fun e => match e with
    | Event.createUser em pw => some (em, pw)
    | _ => none

/-- The navigations recorded in a trace: target route paired with the
email carried as navigation state. -/
def navigations (evs : List Event) : List (String × String) :=
  evs.filterMap fun e => match e with
    | Event.navigate r s => some (r, s)
    | _ => none

/-- The error messages logged in a trace. -/
def logMessages (evs : List Event) : List String :=
  evs.filterMap fun e => match e with
    | Event.logError m => some m
    | _ => none

/-- The successive values written to the `isSubmitting` flag. -/
def flagWrites (evs : List Event) : List Bool :=
  evs.filterMap fun e => match e with
    | Event.setSubmitting b => some b
    | _ => none

/-- The value of the `isSubmitting` flag after replaying a trace,
starting from the initial `useState(false)` value. -/
def flagAfter (evs : List Event) : Bool :=
  evs.foldl (fun acc e => match e with
    | Event.setSubmitting b => b
    | _ => acc) false

/-- The value of the `isSubmitting` flag observed just before position
`i` of the trace. -/
def flagBefore (evs : List Event) (i : Nat) : Bool :=
  flagAfter (evs.take i)

/-- An attribute on a rendered element; `η` is the type of attached
event handlers. -/
inductive Attr (η : Type) where
  | className (s : String)
  | value (s : String)
  | typeAttr (s : String)
  | placeholder (s : String)
  | disabled (b : Bool)
  | src (s : String)
  | alt (s : String)
  | onChange (h : η)
deriving Repr

/-- A rendered markup tree: HTML elements, text, or an imported
component referenced by its local name. -/
inductive Node (η : Type) where
  | element (tag : String) (attrs : List (Attr η)) (children : List (Node η))
  | text (s : String)
  | component (name : String) (children : List (Node η))
deriving Repr

/-- The children of a node. -/
def nodeChildren {η : Type} : Node η → List (Node η)
  | Node.element _ _ cs => cs
  | Node.text _ => []
  | Node.component _ cs => cs

/-- The `i`-th child of a node. -/
def childAt {η : Type} (n : Node η) (i : Nat) : Option (Node η) :=
  (nodeChildren n).get? i

/-- The first `className` attribute of a list of attributes. -/
def firstClassName {η : Type} : List (Attr η) → Option String
  | [] => none
  | Attr.className s :: _ => some s
  | _ :: rest => firstClassName rest

/-- The `className` attribute of a node. -/
def classNameOf {η : Type} : Node η → Option String
  | Node.element _ attrs _ => firstClassName attrs
  | _ => none

/-- The first `value` attribute of a list of attributes. -/
def firstValue {η : Type} : List (Attr η) → Option String
  | [] => none
  | Attr.value s :: _ => some s
  | _ :: rest => firstValue rest

/-- The first `onChange` handler of a list of attributes. -/
def firstOnChange {η : Type} : List (Attr η) → Option η
  | [] => none
  | Attr.onChange h :: _ => some h
  | _ :: rest => firstOnChange rest

/-- The `onChange` handler of a node. -/
def onChangeOf {η : Type} : Node η → Option η
  | Node.element _ attrs _ => firstOnChange attrs
  | _ => none

/-- The first `disabled` attribute of a list of attributes. -/
def firstDisabled {η : Type} : List (Attr η) → Option Bool
  | [] => none
  | Attr.disabled b :: _ => some b
  | _ :: rest => firstDisabled rest

/-- The `disabled` attribute of a node. -/
def disabledOf {η : Type} : Node η → Option Bool
  | Node.element _ attrs _ => firstDisabled attrs
  | _ => none

mutual

/-- The number of `component` nodes with the given local name in a
tree. -/
def componentCount {η : Type} (name : String) : Node η → Nat
  | Node.element _ _ cs => componentCountList name cs
  | Node.text _ => 0
  | Node.component n cs =>
      (if n = name then 1 else 0) + componentCountList name cs

/-- The number of `component` nodes with the given local name in a
forest. -/
def componentCountList {η : Type} (name : String) : List (Node η) → Nat
  | [] => 0
  | c :: cs => componentCount name c + componentCountList name cs

end

mutual

/-- The total number of `component` nodes in a tree. -/
def totalComponents {η : Type} : Node η → Nat
  | Node.element _ _ cs => totalComponentsList cs
  | Node.text _ => 0
  | Node.component _ cs => 1 + totalComponentsList cs

/-- The total number of `component` nodes in a forest. -/
def totalComponentsList {η : Type} : List (Node η) → Nat
  | [] => 0
  | c :: cs => totalComponents c + totalComponentsList cs

end

mutual

/-- The number of event handlers attached anywhere in a tree. -/
def handlerCount {η : Type} : Node η → Nat
  | Node.element _ attrs cs =>
      (attrs.filterMap (fun a => match a with
        | Attr.onChange _ => some ()
        | _ => none)).length + handlerCountList cs
  | Node.text _ => 0
  | Node.component _ cs => handlerCountList cs

/-- The number of event handlers attached anywhere in a forest. -/
def handlerCountList {η : Type} : List (Node η) → Nat
  | [] => 0
  | c :: cs => handlerCount c + handlerCountList cs

end

/-- A DOM change event, carrying `e.target.value`. -/
structure ChangeEvent where
  targetValue : String

/-- The markup returned by the Registration component as a function of
the `isSubmitting` state (the only state it reads while rendering). -/
def registrationView (isSubmitting : Bool) : Node Unit :=
  Node.element "div" [Attr.className "min-h-screen flex"] [
    Node.element "div" [Attr.className "w-1/2 p-8 flex flex-col"] [
      Node.element "img"
        [Attr.src "/logo.svg", Attr.alt "SafeTrust",
         Attr.className "h-12 mb-12"] [],
      Node.element "form" [Attr.className "space-y-6"] [
        Node.element "button"
          [Attr.typeAttr "submit", Attr.disabled isSubmitting,
           Attr.className
             "w-full bg-orange-500 text-white py-3 rounded-md hover:bg-orange-600 disabled:opacity-50"]
          [Node.text (if isSubmitting then "Registering..." else "Login")]
      ]
    ],
    Node.element "div"
      [Attr.className "w-1/2 bg-orange-500 relative overflow-hidden"]
      [Node.component "CityBackground" []]
  ]

/-- The submit button of the rendered Registration markup: root →
left column (child 0) → form (child 1) → button (child 0). -/
def registrationSubmitButton (isSubmitting : Bool) : Option (Node Unit) :=
  (childAt (registrationView isSubmitting) 0).bind fun leftCol =>
  (childAt leftCol 1).bind fun form =>
  childAt form 0

/-- Props of the PhoneInput component; the two change callbacks produce
an effect of type `η`. -/
structure PhoneInputProps (η : Type) where
  countryCode : String
  phoneNumber : String
  onCountryCodeChange : String → η
  onPhoneNumberChange : String → η

/-- The PhoneInput component: a country-code select wired to
`(e) => onCountryCodeChange(e.target.value)` and a tel input wired to
`(e) => onPhoneNumberChange(e.target.value)`. -/
def PhoneInput {η : Type} (p : PhoneInputProps η) : Node (ChangeEvent → η) :=
  Node.element "div" [Attr.className "flex gap-2"] [
    Node.element "div" [Attr.className "relative"] [
      Node.element "select"
        [Attr.value p.countryCode,
         Attr.onChange (fun e => p.onCountryCodeChange e.targetValue),
         Attr.className "w-24 p-3 pl-8 border rounded-md appearance-none"]
        [Node.element "option" [Attr.value "+506"] [Node.text "🇨🇷 +506"]]
    ],
    Node.element "input"
      [Attr.typeAttr "tel", Attr.value p.phoneNumber,
       Attr.onChange (fun e => p.onPhoneNumberChange e.targetValue),
       Attr.className "flex-1 p-3 border rounded-md",
       Attr.placeholder "74812445"] []
  ]

/-- The select element of the rendered PhoneInput markup: root →
relative wrapper (child 0) → select (child 0). -/
def phoneInputSelect {η : Type} (p : PhoneInputProps η) :
    Option (Node (ChangeEvent → η)) :=
  (childAt (PhoneInput p) 0).bind fun wrapper => childAt wrapper 0

/-- The tel input element of the rendered PhoneInput markup: root →
input (child 1). -/
def phoneInputNumberField {η : Type} (p : PhoneInputProps η) :
    Option (Node (ChangeEvent → η)) :=
  childAt (PhoneInput p) 1

/-- The `value` attributes of the option children of a node. -/
def optionValuesOf {η : Type} (n : Node η) : List String :=
  (nodeChildren n).filterMap fun c => match c with
    | Node.element "option" attrs _ => firstValue attrs
    | _ => none

/-- The values offered by the PhoneInput country-code select. -/
def phoneInputSelectOptions {η : Type} (p : PhoneInputProps η) :
    List String :=
  match phoneInputSelect p with
  | some sel => optionValuesOf sel
  | none => []

/-- The PaidStateBidRequest page component
(src/app/profile/bids/page.tsx): a props-less function component
composing MainHeader, Header, Details, Notes and Process into a fixed
grid.  It attaches no event handlers, so the handler type is `Empty`. -/
def PaidStateBidRequest (_ : Unit) : Node Empty :=
  Node.element "div" [Attr.className "w-full bg-gray-50 min-h-screen"] [
    Node.component "MainHeader" [],
    Node.element "div" [Attr.className "px-10 py-8"] [
      Node.component "Header" [],
      Node.element "div" [Attr.className "grid grid-cols-12 gap-6"] [
        Node.element "div"
          [Attr.className "col-span-8 bg-white shadow rounded p-4"] [
          Node.element "h2" [] [Node.text "Details Section"],
          Node.component "Details" []
        ],
        Node.element "div" [Attr.className "col-span-4"] [
          Node.element "div"
            [Attr.className "bg-white shadow rounded p-4 mb-6"]
            [Node.component "Notes" []],
          Node.element "div" [Attr.className "bg-white shadow rounded p-4"] [
            Node.element "h3"
              [Attr.className "text-lg font-bold text-black"]
              [Node.text "Process"],
            Node.component "Process" []
          ]
        ]
      ]
    ]
  ]

/-- The grid container of the PaidStateBidRequest page: root →
content wrapper (child 1) → grid (child 1). -/
def bidPageGrid : Option (Node Empty) :=
  (childAt (PaidStateBidRequest ()) 1).bind fun wrapper =>
  childAt wrapper 1

/-- A sample filled registration form, used to instantiate theorems with
hypotheses at a concrete input. -/
def regSample : RegistrationForm :=
  ⟨"Ada Lovelace", "74812445", "+506", "Costa Rica",
   "ada@example.com", "hunter2"⟩

/-- A sample PhoneInput props record with trivial callbacks. -/
def pSample : PhoneInputProps Unit :=
  ⟨"+506", "74812445", fun _ => (), fun _ => ()⟩

/-- The full event trace of the submit handler when the
identity-provider call succeeds. -/
lemma traceSuccess (data : RegistrationForm) :
    (onSubmit AuthOutcome.success data).1 =
      [Event.setSubmitting true,
       Event.createUser data.email data.password,
       Event.navigate "/verify-email" data.email,
       Event.setSubmitting false] := rfl

/-- The full event trace of the submit handler when the
identity-provider call fails. -/
lemma traceFailure (data : RegistrationForm) (e : String) :
    (onSubmit (AuthOutcome.failure e) data).1 =
      [Event.setSubmitting true,
       Event.createUser data.email data.password,
       Event.logError ("Registration error: " ++ e),
       Event.setSubmitting false] := rfl

/-- C1: for every submission, whatever the outcome of the external call,
the onSubmit handler invokes the identity-provider account-creation
function exactly once, passing exactly the email and password entered in
the form. -/
theorem registration_auth_called_once (outcome : AuthOutcome)
    (data : RegistrationForm) :
    authCalls (onSubmit outcome data).1 = [(data.email, data.password)] := by
  cases outcome <;> rfl

/-- C2: for every submission in which the account-creation call
succeeds, the onSubmit handler performs exactly one navigation, to the
route "/verify-email", and the navigation state carries exactly the
submitted email. -/
theorem registration_success_navigates_with_email
    (data : RegistrationForm) :
    navigations (onSubmit AuthOutcome.success data).1 =
      [("/verify-email", data.email)] := rfl

/-- C3: for every submission in which the account-creation call fails,
the handler completes normally (the error is caught), logs exactly one
error message, resets the isSubmitting flag to false, performs no
navigation, and makes no second identity-provider call; the full trace
shows no other user-facing effect. -/
theorem registration_failure_caught_logged_no_navigation
    (data : RegistrationForm) (e : String) :
    (onSubmit (AuthOutcome.failure e) data).1 =
      [Event.setSubmitting true,
       Event.createUser data.email data.password,
       Event.logError ("Registration error: " ++ e),
       Event.setSubmitting false] ∧
    (onSubmit (AuthOutcome.failure e) data).2 = Res.ok () ∧
    logMessages (onSubmit (AuthOutcome.failure e) data).1 =
      ["Registration error: " ++ e] ∧
    navigations (onSubmit (AuthOutcome.failure e) data).1 = [] ∧
    flagWrites (onSubmit (AuthOutcome.failure e) data).1 = [true, false] ∧
    (authCalls (onSubmit (AuthOutcome.failure e) data).1).length = 1 :=
  ⟨rfl, rfl, rfl, rfl, rfl, rfl⟩

/-- C4: for every edit event on the PhoneInput component, the
country-code select invokes onCountryCodeChange with the raw
`e.target.value` and the number field invokes onPhoneNumberChange with
the raw `e.target.value`, with no formatting or validation applied to
either value before the callback. -/
theorem phoneInput_callbacks_raw_value {η : Type}
    (p : PhoneInputProps η) (e : ChangeEvent) :
    ((phoneInputSelect p).bind onChangeOf).map (fun h => h e) =
      some (p.onCountryCodeChange e.targetValue) ∧
    ((phoneInputNumberField p).bind onChangeOf).map (fun h => h e) =
      some (p.onPhoneNumberChange e.targetValue) :=
  ⟨rfl, rfl⟩

/-- C5: in every execution of the submit handler, the isSubmitting flag
is already true at the point the account-creation call starts, every
write of false to the flag comes strictly after the call event, and the
submit button is rendered disabled exactly when the flag is true. -/
theorem registration_flag_set_during_call (outcome : AuthOutcome)
    (data : RegistrationForm) (b : Bool) (i j : Nat)
    (hi : ((onSubmit outcome data).1).get? i =
      some (Event.createUser data.email data.password))
    (hj : ((onSubmit outcome data).1).get? j =
      some (Event.setSubmitting false)) :
    flagBefore (onSubmit outcome data).1 (i + 1) = true ∧ i < j ∧
      (registrationSubmitButton b).bind disabledOf = some b := by
  have hbtn : (registrationSubmitButton b).bind disabledOf = some b := by
    cases b <;> rfl
  cases outcome with
  | success =>
      rw [traceSuccess] at hi hj
      rcases i with _ | _ | _ | _ | i
      · simp [List.get?] at hi
      · rcases j with _ | _ | _ | _ | j
        · simp [List.get?] at hj
        · simp [List.get?] at hj
        · simp [List.get?] at hj
        · exact ⟨rfl, by omega, hbtn⟩
        · simp [List.get?] at hj
      · simp [List.get?] at hi
      · simp [List.get?] at hi
      · simp [List.get?] at hi
  | failure e =>
      rw [traceFailure] at hi hj
      rcases i with _ | _ | _ | _ | i
      · simp [List.get?] at hi
      · rcases j with _ | _ | _ | _ | j
        · simp [List.get?] at hj
        · simp [List.get?] at hj
        · simp [List.get?] at hj
        · exact ⟨rfl, by omega, hbtn⟩
        · simp [List.get?] at hj
      · simp [List.get?] at hi
      · simp [List.get?] at hi
      · simp [List.get?] at hi

/-- Witness for C5 at a concrete successful submission: the
account-creation call sits at index 1 of the trace, the flag is true at
that point, and the reset to false at index 3 comes after it. -/
theorem registration_flag_set_during_call_witness :
    flagBefore (onSubmit AuthOutcome.success regSample).1 (1 + 1) = true ∧
    1 < 3 ∧
    (registrationSubmitButton true).bind disabledOf = some true :=
  registration_flag_set_during_call AuthOutcome.success regSample true 1 3
    rfl rfl

/-- C6: the PaidStateBidRequest page component is a deterministic
rendering function: any two invocations return identical markup, and the
returned tree carries no event handlers (its handler type is Empty and
its handler count is zero). -/
theorem bidPage_deterministic_render (a b : Unit) :
    PaidStateBidRequest a = PaidStateBidRequest b ∧
    handlerCount (PaidStateBidRequest a) = 0 :=
  ⟨rfl, rfl⟩

/-- C7: the PaidStateBidRequest page composes exactly five imported
components, each rendered exactly once, inside a 12-column grid whose
first region carries the col-span-8 class and holds Details and whose
second region carries the col-span-4 class and holds Notes and
Process. -/
theorem bidPage_five_components_fixed_grid :
    componentCount "MainHeader" (PaidStateBidRequest ()) = 1 ∧
    componentCount "Header" (PaidStateBidRequest ()) = 1 ∧
    componentCount "Details" (PaidStateBidRequest ()) = 1 ∧
    componentCount "Notes" (PaidStateBidRequest ()) = 1 ∧
    componentCount "Process" (PaidStateBidRequest ()) = 1 ∧
    totalComponents (PaidStateBidRequest ()) = 5 ∧
    bidPageGrid.bind classNameOf = some "grid grid-cols-12 gap-6" ∧
    (bidPageGrid.bind fun g => (childAt g 0).bind classNameOf) =
      some "col-span-8 bg-white shadow rounded p-4" ∧
    (bidPageGrid.bind fun g => (childAt g 1).bind classNameOf) =
      some "col-span-4" ∧
    (bidPageGrid.bind fun g =>
      (childAt g 0).map (componentCount "Details")) = some 1 ∧
    (bidPageGrid.bind fun g =>
      (childAt g 1).map (componentCount "Notes")) = some 1 ∧
    (bidPageGrid.bind fun g =>
      (childAt g 1).map (componentCount "Process")) = some 1 :=
  ⟨rfl, rfl, rfl, rfl, rfl, rfl, rfl, rfl, rfl, rfl, rfl, rfl⟩

/-- C8: for every submission, whatever the outcome, the writes to the
isSubmitting flag are exactly true then false, so the flag is reset to
false after the call completes on the success path as well as on the
failure path. -/
theorem registration_flag_reset_on_every_outcome (outcome : AuthOutcome)
    (data : RegistrationForm) :
    flagWrites (onSubmit outcome data).1 = [true, false] ∧
    (flagWrites (onSubmit outcome data).1).getLast? = some false ∧
    flagAfter (onSubmit outcome data).1 = false := by
  cases outcome <;> exact ⟨rfl, rfl, rfl⟩

/-- C9: the onSubmit handler never propagates an exception: for every
outcome of the account-creation call it completes normally. -/
theorem registration_never_throws (outcome : AuthOutcome)
    (data : RegistrationForm) :
    (onSubmit outcome data).2 = Res.ok () := by
  cases outcome <;> rfl

/-- C10: the PhoneInput country-code select offers exactly one option,
"+506"; hence any change event whose value is drawn from the offered
options invokes onCountryCodeChange with "+506". -/
theorem phoneInput_only_option_506 {η : Type} (p : PhoneInputProps η)
    (v : String) (hv : v ∈ phoneInputSelectOptions p) :
    phoneInputSelectOptions p = ["+506"] ∧ v = "+506" ∧
    ((phoneInputSelect p).bind onChangeOf).map (fun h => h ⟨v⟩) =
      some (p.onCountryCodeChange "+506") := by
  have hopts : phoneInputSelectOptions p = ["+506"] := rfl
  rw [hopts] at hv
  have hv506 : v = "+506" := by simpa using hv
  subst hv506
  exact ⟨rfl, rfl, rfl⟩

/-- Witness for C10 at the concrete sample props and the offered value
"+506". -/
theorem phoneInput_only_option_506_witness :
    phoneInputSelectOptions pSample = ["+506"] ∧
    ("+506" : String) = "+506" ∧
    ((phoneInputSelect pSample).bind onChangeOf).map (fun h => h ⟨"+506"⟩) =
      some (pSample.onCountryCodeChange "+506") :=
  phoneInput_only_option_506 pSample "+506" (by decide)

end SafeTrust
